import Mathlib

/-
Shallow embedding of the Qt-Color-Widgets swatch widget
(src/swatch.cpp) and its color conversion helpers (src/color_utils.cpp).

Modelling conventions:
* C++ `int` arithmetic is modelled over `Int`, with truncated division and
  remainder (`Int.tdiv` / `Int.tmod`), matching C++ `/` and `%`.
* `float` / `qreal` arithmetic is modelled exactly over `ℚ`; the places where
  the source's floating-point computation is not exact (`std::ceil` of a
  `float` quotient for astronomically large palettes, the 16-bit quantisation
  performed by `QColor`) are immaterial to the statements proved here and are
  noted at the definitions concerned.
* Fallible computations return `Option`; `none` marks executions in which the
  source's arithmetic is undefined (division by zero followed by a
  float-to-int conversion of a non-finite value).
-/

namespace ColorWidgets

/-! ## Basic Qt value types -/

/-- A `QSize` with integer components; the default-constructed `QSize()` is
`⟨-1, -1⟩`. -/
structure QSizeI where
  w : Int
  h : Int
deriving DecidableEq

/-- `QSize::isValid`: both components nonnegative. -/
def QSizeI.isValid (s : QSizeI) : Prop := 0 ≤ s.w ∧ 0 ≤ s.h

instance (s : QSizeI) : Decidable s.isValid :=
  decidable_of_iff (0 ≤ s.w ∧ 0 ≤ s.h) Iff.rfl

/-- `QSize::isEmpty`: width or height less than 1. -/
def QSizeI.isEmpty (s : QSizeI) : Prop := s.w < 1 ∨ s.h < 1

instance (s : QSizeI) : Decidable s.isEmpty :=
  decidable_of_iff (s.w < 1 ∨ s.h < 1) Iff.rfl

/-- A `QRectF` over exact rationals; the default-constructed `QRectF()` (the
null rectangle) is `⟨0, 0, 0, 0⟩`. -/
structure RectQ where
  x : ℚ
  y : ℚ
  w : ℚ
  h : ℚ
deriving DecidableEq

/-- `QRectF::isValid`: strictly positive width and height. -/
def RectQ.isValid (r : RectQ) : Prop := 0 < r.w ∧ 0 < r.h

instance (r : RectQ) : Decidable r.isValid :=
  decidable_of_iff (0 < r.w ∧ 0 < r.h) Iff.rfl

/-- `QRectF::top`. -/
def RectQ.top (r : RectQ) : ℚ := r.y

/-- `QRectF::left`. -/
def RectQ.left (r : RectQ) : ℚ := r.x

/-- `QRectF::center`: the midpoint `(x + w/2, y + h/2)`. -/
def RectQ.center (r : RectQ) : ℚ × ℚ := (r.x + r.w / 2, r.y + r.h / 2)

/-- Truncation toward zero of a rational, as performed by a C++
double-to-int conversion. -/
def truncQ (q : ℚ) : Int := Int.tdiv q.num (q.den : Int)

/-- `qBound<int>(lo, v, hi) = qMax(lo, qMin(hi, v))`. -/
def qBoundI (lo v hi : Int) : Int := max lo (min hi v)

/-- `qBound(0.0, v, 1.0) = qMax(0.0, qMin(1.0, v))` over exact rationals. -/
def qBoundQ (lo v hi : ℚ) : ℚ := max lo (min hi v)

/-- `std::fmod` over exact rationals: `a - b * trunc (a / b)` (the source only
applies it with divisor `2` and a dividend in `[0, 6)`). -/
def fmodQ (a b : ℚ) : ℚ := a - b * (truncQ (a / b) : ℚ)

/-- Exact ceiling division on naturals, the value of
`std::ceil(float(a) / b)` for `0 < b` (the source's `float` quotient is
modelled exactly). -/
def ceilDivNat (a b : Nat) : Nat := (a + b - 1) / b

/-! ## Grid geometry (Swatch::Private) -/

/-- The inputs read by `Swatch::Private::rowcols` and the geometry helpers
(src/swatch.cpp:45-108): the palette collaborator's count and column hint, the
forced row/column settings, the widget size, the nominal color square size
`color_size`, and the margin. -/
structure GridInput where
  count : Nat
  paletteColumns : Nat
  forcedRows : Nat
  forcedColumns : Nat
  width : Nat
  height : Nat
  cellWidth : Nat
  cellHeight : Nat
  margin : Int
deriving DecidableEq

/-- The column count chosen by `Swatch::Private::rowcols` when no row count
is forced (src/swatch.cpp:98-103): the forced column count if set, else the
palette collaborator's column hint if nonzero, else
`qMin(count, width() / color_size.width())`.  `none` marks the integer
division by a zero `color_size.width()` (undefined behavior in the
source). -/
def autoColumns (g : GridInput) : Option Nat :=
  if g.forcedColumns ≠ 0 then some g.forcedColumns
  else if g.paletteColumns ≠ 0 then some g.paletteColumns
  else if g.cellWidth = 0 then none
  else some (min g.count (g.width / g.cellWidth))

/-- `Swatch::Private::rowcols` (src/swatch.cpp:89-108), the `(columns, rows)`
layout.  `count = 0` yields the default `QSize()`, i.e. `⟨-1, -1⟩`.  `none`
marks the executions in which the source's arithmetic is undefined: when
`color_size.width()` is `0` the integer division `width() / cellWidth`
divides by zero, and when the chosen column count works out to `0` the source
computes `std::ceil(count / 0.0f)` and converts the non-finite float to
`int`. -/
def rowcols (g : GridInput) : Option QSizeI :=
  if g.count = 0 then some ⟨-1, -1⟩
  else if g.forcedRows ≠ 0 then
    some ⟨(ceilDivNat g.count g.forcedRows : Int), (g.forcedRows : Int)⟩
  else
    match autoColumns g with
    | none => none
    | some c =>
      if c = 0 then none
      else some ⟨(c : Int), (ceilDivNat g.count c : Int)⟩

/-- `Swatch::Private::actualColorSize(rowcols)` (src/swatch.cpp:191-195): the
widget size divided componentwise by the layout size, over exact rationals. -/
def actualColorSize (g : GridInput) (rc : QSizeI) : ℚ × ℚ :=
  ((g.width : ℚ) / (rc.w : ℚ), (g.height : ℚ) / (rc.h : ℚ))

/-- `Swatch::Private::indexRect(index, rowcols, color_size)`
(src/swatch.cpp:202-212): the cell rectangle of a linear index under a given
layout and cell size, with the margin added to the origin and subtracted
twice from the size. -/
def indexRectRaw (index : Int) (rc : QSizeI) (cs : ℚ × ℚ) (margin : Int) : RectQ :=
  if index = -1 then ⟨0, 0, 0, 0⟩
  else
    ⟨(index.tmod rc.w : ℚ) * cs.1 + (margin : ℚ),
     (index.tdiv rc.w : ℚ) * cs.2 + (margin : ℚ),
     cs.1 - (margin : ℚ) * 2,
     cs.2 - (margin : ℚ) * 2⟩

/-- `Swatch::Private::indexRect(index)` (src/swatch.cpp:216-222): the guarded
cell rectangle, the null `QRectF()` when the index is `-1` or the layout is
invalid.  `none` propagates an undefined `rowcols` execution. -/
def indexRect (g : GridInput) (index : Int) : Option RectQ :=
  match rowcols g with
  | none => none
  | some rc =>
    if index = -1 ∨ ¬rc.isValid then some ⟨0, 0, 0, 0⟩
    else some (indexRectRaw index rc (actualColorSize g rc) g.margin)

/-- `Swatch::indexAt` (src/swatch.cpp:290-306): point-to-index hit test; the
point is clamped into the grid and `-1` is returned for an empty layout or a
trailing incomplete row.  `none` marks executions in which the source divides
by a zero cell size (zero widget width or height) and converts a non-finite
double to `int`, or in which `rowcols` was already undefined. -/
def indexAt (g : GridInput) (pt : ℚ × ℚ) : Option Int :=
  match rowcols g with
  | none => none
  | some rc =>
    if rc.isEmpty then some (-1)
    else
      let cs := actualColorSize g rc
      if cs.1 = 0 ∨ cs.2 = 0 then none
      else
        let px := qBoundI 0 (truncQ (pt.1 / cs.1)) (rc.w - 1)
        let py := qBoundI 0 (truncQ (pt.2 / cs.2)) (rc.h - 1)
        let index := py * rc.w + px
        if (g.count : Int) ≤ index then some (-1) else some index

/-! ## Swatch widget state and operations -/

/-- `QColor` values are only compared for equality by the swatch logic;
model them as an opaque countable type. -/
abbrev Color := Nat

/-- The Swatch widget state: the owned palette collaborator's observable data
(ordered colors and column hint) and the `Swatch::Private` fields the
modelled operations read or write (src/swatch.cpp:45-84). -/
structure SwatchState where
  palette : List Color
  paletteColumns : Nat
  selected : Int
  forcedRows : Nat
  forcedColumns : Nat
  width : Nat
  height : Nat
  cellWidth : Nat
  cellHeight : Nat
  margin : Int
  emptyColor : Color
  readonly : Bool
deriving DecidableEq

/-- The `GridInput` a state presents to the geometry helpers. -/
def gridOf (s : SwatchState) : GridInput :=
  ⟨s.palette.length, s.paletteColumns, s.forcedRows, s.forcedColumns,
   s.width, s.height, s.cellWidth, s.cellHeight, s.margin⟩

/-- Modelled from the spec: the palette collaborator's `colorAt(i)` (the
`ColorPalette` class is not under src/) — the color stored at index `i`, or
the invalid `QColor()` (here `none`) when `i` is out of range. -/
def paletteColorAt (l : List Color) (i : Int) : Option Color :=
  if 0 ≤ i then l[i.toNat]? else none

/-- `Swatch::setSelected` (src/swatch.cpp:321-333): an index outside
`[0, count)` is normalised to the sentinel `-1`; the stored selection is
updated when it changed. -/
def setSelected (s : SwatchState) (sel : Int) : SwatchState :=
  let sel := if sel < 0 ∨ (s.palette.length : Int) ≤ sel then -1 else sel
  if sel ≠ s.selected then { s with selected := sel } else s

/-- `Swatch::paletteModified` (src/swatch.cpp:555-566), the selection part:
clears the selection when the palette has shrunk to at most the selected
index (the size-policy plumbing is rendering concerns, not modelled). -/
def paletteModified (s : SwatchState) : SwatchState :=
  if (s.palette.length : Int) ≤ s.selected then setSelected s (-1) else s

/-- Modelled from the spec: the palette collaborator's `eraseColor(index)`
(the `ColorPalette` class is not under src/) removes the entry at `index` and
notifies its listeners; the Swatch handlers registered in the constructor run
synchronously — the `colorRemoved` handler (src/swatch.cpp:236-239) clears
the selection when the removed index is the selected one, and the
`colorsChanged` handler (src/swatch.cpp:227) is `Swatch::paletteModified`. -/
def eraseColorEvent (s : SwatchState) (index : Nat) : SwatchState :=
  let s1 := { s with palette := s.palette.eraseIdx index }
  let s2 := if (index : Int) = s1.selected then setSelected s1 (-1) else s1
  paletteModified s2

/-- `Swatch::removeSelected` (src/swatch.cpp:523-531): when a selection
exists and the widget is not read-only, erases the selected entry and then
calls `setSelected(qMin(selected, count() - 1))`. -/
def removeSelected (s : SwatchState) : SwatchState :=
  if s.selected ≠ -1 ∧ ¬s.readonly then
    let sel := s.selected
    let s1 := eraseColorEvent s sel.toNat
    setSelected s1 (min sel ((s1.palette.length : Int) - 1))
  else s

/-- `Swatch::setPalette` (src/swatch.cpp:313-319): clears the selection, then
replaces the palette collaborator's data. -/
def setPalette (s : SwatchState) (pal : List Color) (cols : Nat) : SwatchState :=
  let s1 := setSelected s (-1)
  { s1 with palette := pal, paletteColumns := cols }

/-- The keys handled by `Swatch::keyPressEvent`. -/
inductive Key where
  | left | right | up | down | home | endKey | delete | backspace
  | pageUp | pageDown | other
deriving DecidableEq

/-- `Swatch::keyPressEvent` (src/swatch.cpp:428-521).  `ctrl` is the
`Qt::ControlModifier` test.  The local `selected`, `count`, `columns` and
`rows` are read before the dispatch, exactly as in the source; for `count = 0`
`rowcols` is the default `QSize()` and `columns = rows = -1`.  `none`
propagates an undefined `rowcols` execution.  Unrecognised keys reach the
base-class handler and leave the state unchanged. -/
def keyPressEvent (s : SwatchState) (key : Key) (ctrl : Bool) : Option SwatchState :=
  match rowcols (gridOf s) with
  | none => none
  | some rc =>
    let sel := s.selected
    let count : Int := (s.palette.length : Int)
    let columns := rc.w
    let rows := rc.h
    match key with
    | .other => some s
    | .left =>
        some (setSelected s
          (if sel = -1 then count - 1 else if 0 < sel then sel - 1 else sel))
    | .right =>
        some (setSelected s
          (if sel = -1 then 0 else if sel < count - 1 then sel + 1 else sel))
    | .up =>
        some (setSelected s
          (if sel = -1 then count - 1 else if columns ≤ sel then sel - columns else sel))
    | .down =>
        some (setSelected s
          (if sel = -1 then 0 else if sel < count - columns then sel + columns else sel))
    | .home =>
        some (setSelected s (if ctrl then 0 else sel - sel.tmod columns))
    | .endKey =>
        some (setSelected s
          (if ctrl then count - 1 else sel + (columns - sel.tmod columns - 1)))
    | .delete => some (removeSelected s)
    | .backspace =>
        if sel ≠ -1 ∧ ¬s.readonly then
          let s1 := eraseColorEvent s sel.toNat
          let sel1 := if s1.palette.length = 0 then -1 else max (sel - 1) 0
          some (setSelected s1 sel1)
        else some (setSelected s sel)
    | .pageUp =>
        some (setSelected s (if sel = -1 then 0 else sel.tmod columns))
    | .pageDown =>
        if sel = -1 then some (setSelected s (count - 1))
        else
          let sel1 := columns * (rows - 1) + sel.tmod columns
          some (setSelected s (if count ≤ sel1 then sel1 - columns else sel1))

/-- `Swatch::Private::dropEvent` (src/swatch.cpp:113-162), restricted to the
target-index and disposition computation (the color payload extraction only
fills `drop_color`, which the disposition logic does not read).
`sameWidgetMove` stands for
`event->dropAction() == Qt::MoveAction && event->source() == owner`; the
source's condition is its negation.  Returns `(drop_index, drop_overwrite)`;
`none` propagates an undefined geometry execution. -/
def resolveDrop (s : SwatchState) (pos : ℚ × ℚ) (sameWidgetMove : Bool) :
    Option (Int × Bool) :=
  match indexAt (gridOf s) pos with
  | none => none
  | some i0 =>
    let dropIndex : Int := if i0 = -1 then (s.palette.length : Int) else i0
    match indexRect (gridOf s) dropIndex with
    | none => none
    | some dropRect =>
      if dropIndex < (s.palette.length : Int) ∧ dropRect.isValid then
        if s.paletteColumns = 1 ∨ s.forcedColumns = 1 then
          if dropRect.top + dropRect.h * 3 / 4 ≤ pos.2 then
            some (dropIndex + 1, false)
          else if dropRect.top + dropRect.h / 4 < pos.1
              ∧ (¬sameWidgetMove ∨ paletteColorAt s.palette dropIndex = some s.emptyColor) then
            some (dropIndex, true)
          else some (dropIndex, false)
        else
          if dropRect.left + dropRect.w * 3 / 4 ≤ pos.1 then
            some (dropIndex + 1, false)
          else if dropRect.left + dropRect.w / 4 < pos.1
              ∧ (¬sameWidgetMove ∨ paletteColorAt s.palette dropIndex = some s.emptyColor) then
            some (dropIndex, true)
          else some (dropIndex, false)
      else some (dropIndex, false)

/-! ## Collaborator-call views (for the index-range safety claim) -/

/-- The index `Swatch::selectedColor` (src/swatch.cpp:285-288) passes to the
palette collaborator's `colorAt`: `p->selected`, unguarded. -/
def selectedColorCallIndex (s : SwatchState) : Int := s.selected

/-- The index `Swatch::colorAt(point)` (src/swatch.cpp:308-311) passes to the
collaborator's `colorAt`: the raw result of `indexAt`, unguarded. -/
def colorAtPointCallIndex (s : SwatchState) (pt : ℚ × ℚ) : Option Int :=
  indexAt (gridOf s) pt

/-- The index `Swatch::removeSelected` (src/swatch.cpp:523-531) passes to the
collaborator's `eraseColor`, when it calls it at all. -/
def removeSelectedEraseIndex (s : SwatchState) : Option Int :=
  if s.selected ≠ -1 ∧ ¬s.readonly then some s.selected else none

/-- The index the Backspace branch of `Swatch::keyPressEvent`
(src/swatch.cpp:490-499) passes to the collaborator's `eraseColor`, when it
calls it at all. -/
def backspaceEraseIndex (s : SwatchState) : Option Int :=
  if s.selected ≠ -1 ∧ ¬s.readonly then some s.selected else none

/-- The selection-state invariant (spec, Data Model): the stored selection is
the sentinel `-1` or a valid palette index. -/
def selInvariant (s : SwatchState) : Prop :=
  s.selected = -1 ∨ (0 ≤ s.selected ∧ s.selected < (s.palette.length : Int))

/-! ## Color conversion (color_widgets::detail, src/color_utils.cpp) -/

/-- An RGBA color with exact rational channels, the value a
`QColor::fromRgbF` call carries (the 16-bit quantisation `QColor` performs is
immaterial here: the final channels are produced by explicit clamping). -/
structure RGBAq where
  r : ℚ
  g : ℚ
  b : ℚ
  a : ℚ
deriving DecidableEq

/-- The sextant table shared by `color_from_lch` and `color_from_hsl`
(src/color_utils.cpp:38-50 and 66-78): the RGB triple before the luma or
lightness offset.  For `h1 ≥ 6` no branch fires and the default-constructed
`QColor` is kept, whose channels read back `0`; for `h1 < 0` the source's
`else if (h1 < 2)` branch fires, exactly as here. -/
def sextantRGB (h1 chroma x : ℚ) : ℚ × ℚ × ℚ :=
  if 0 ≤ h1 ∧ h1 < 1 then (chroma, x, 0)
  else if h1 < 2 then (x, chroma, 0)
  else if h1 < 3 then (0, chroma, x)
  else if h1 < 4 then (0, x, chroma)
  else if h1 < 5 then (x, 0, chroma)
  else if h1 < 6 then (chroma, 0, x)
  else (0, 0, 0)

/-- Modelled from the spec: `detail::color_lumaF` (declared in
color_utils.hpp, which is not under src/) — the relative luma of a color, a
linear combination of the RGB channels with fixed coefficients approximating
perceptual luminance. -/
def color_lumaF (c : ℚ × ℚ × ℚ) : ℚ :=
  (30 / 100) * c.1 + (59 / 100) * c.2.1 + (11 / 100) * c.2.2

/-- `detail::color_from_lch` (src/color_utils.cpp:34-59). -/
def color_from_lch (hue chroma luma alpha : ℚ) : RGBAq :=
  let h1 := hue * 6
  let x := chroma * (1 - |fmodQ h1 2 - 1|)
  let col := sextantRGB h1 chroma x
  let m := luma - color_lumaF col
  ⟨qBoundQ 0 (col.1 + m) 1, qBoundQ 0 (col.2.1 + m) 1,
   qBoundQ 0 (col.2.2 + m) 1, alpha⟩

/-- `detail::color_from_hsl` (src/color_utils.cpp:61-87). -/
def color_from_hsl (hue sat lig alpha : ℚ) : RGBAq :=
  let chroma := (1 - |2 * lig - 1|) * sat
  let h1 := hue * 6
  let x := chroma * (1 - |fmodQ h1 2 - 1|)
  let col := sextantRGB h1 chroma x
  let m := lig - chroma / 2
  ⟨qBoundQ 0 (col.1 + m) 1, qBoundQ 0 (col.2.1 + m) 1,
   qBoundQ 0 (col.2.2 + m) 1, alpha⟩

/-- All three RGB channels lie in the unit interval. -/
def inRGBRange (c : RGBAq) : Prop :=
  0 ≤ c.r ∧ c.r ≤ 1 ∧ 0 ≤ c.g ∧ c.g ≤ 1 ∧ 0 ≤ c.b ∧ c.b ≤ 1

/-! ## Concrete states used by the examples and counterexamples -/

/-- A two-color single-column swatch (column hint 1), 40×200 pixels, no
margin, transparent empty color, not read-only, nothing selected. -/
def dropBugState : SwatchState :=
  ⟨[5, 6], 1, -1, 0, 0, 40, 200, 16, 16, 0, 0, false⟩

/-- An eight-color four-column swatch (column hint 4), 80×40 pixels: two rows
of four 20×20 cells. -/
def fourColState : SwatchState :=
  ⟨[1, 2, 3, 4, 5, 6, 7, 8], 4, -1, 0, 0, 80, 40, 16, 16, 0, 0, false⟩

/-- Like `fourColState` but the cell at index 1 holds the empty sentinel
color. -/
def fourColStateEmptyCell : SwatchState :=
  ⟨[1, 0, 3, 4, 5, 6, 7, 8], 4, -1, 0, 0, 80, 40, 16, 16, 0, 0, false⟩

/-- A five-color single-row swatch with nothing selected. -/
def fiveState : SwatchState :=
  ⟨[1, 2, 3, 4, 5], 5, -1, 0, 0, 80, 16, 16, 16, 0, 0, false⟩

/-- A one-color swatch with index 0 selected, not read-only. -/
def oneSelectedState : SwatchState :=
  ⟨[9], 1, 0, 0, 0, 16, 16, 16, 16, 0, 0, false⟩

/-- A three-color swatch with nothing selected. -/
def noSelectionState : SwatchState :=
  ⟨[1, 2, 3], 3, -1, 0, 0, 48, 16, 16, 16, 0, 0, false⟩

/-- A two-color swatch with index 0 selected, not read-only. -/
def twoSelectedState : SwatchState :=
  ⟨[7, 8], 2, 0, 0, 0, 32, 16, 16, 16, 0, 0, false⟩

/-! ## Arithmetic helper lemmas -/

theorem ceilDivNat_pos {a b : Nat} (ha : 0 < a) (hb : 0 < b) :
    0 < ceilDivNat a b := by
  unfold ceilDivNat
  rw [Nat.lt_iff_add_one_le, Nat.le_div_iff_mul_le hb]
  omega

theorem le_ceilDivNat_mul (a : Nat) {b : Nat} (hb : 0 < b) :
    a ≤ ceilDivNat a b * b := by
  have h : a + b - 1 < ceilDivNat a b * b + b := by
    have h0 := (Nat.div_lt_iff_lt_mul hb).mp (Nat.lt_succ_self ((a + b - 1) / b))
    calc a + b - 1 < ((a + b - 1) / b + 1) * b := by
          simpa [Nat.succ_eq_add_one] using h0
      _ = (a + b - 1) / b * b + b := by ring
      _ = ceilDivNat a b * b + b := rfl
  generalize ceilDivNat a b * b = m at h ⊢
  omega

theorem truncQ_eq_floor (q : ℚ) (h : 0 ≤ q) : truncQ q = ⌊q⌋ := by
  rw [truncQ, Int.tdiv_eq_ediv (Rat.num_nonneg.mpr h) (by positivity), Rat.floor_def]

theorem truncQ_int_add_half (k : ℤ) (hk : 0 ≤ k) :
    truncQ ((k : ℚ) + 1 / 2) = k := by
  have hk1 : (0 : ℚ) ≤ (k : ℚ) := by exact_mod_cast hk
  rw [truncQ_eq_floor _ (by linarith), Int.floor_eq_iff]
  constructor
  · linarith
  · linarith

/-- Any successful `rowcols` layout for a nonempty palette has at least one
column and one row, and enough cells for the whole palette. -/
theorem rowcols_pos {g : GridInput} {rc : QSizeI} (h : rowcols g = some rc)
    (hc : 0 < g.count) : 1 ≤ rc.w ∧ 1 ≤ rc.h ∧ (g.count : Int) ≤ rc.w * rc.h := by
  unfold rowcols at h
  rw [if_neg (by omega)] at h
  by_cases hf : g.forcedRows ≠ 0
  · rw [if_pos hf] at h
    cases h
    have hfr : 0 < g.forcedRows := by omega
    have h1 := ceilDivNat_pos hc hfr
    have h2 := le_ceilDivNat_mul g.count hfr
    dsimp only
    refine ⟨by exact_mod_cast h1, by exact_mod_cast hfr, ?_⟩
    exact_mod_cast h2
  · rw [if_neg hf] at h
    cases hauto : autoColumns g with
    | none => rw [hauto] at h; exact absurd h (by simp)
    | some c =>
      rw [hauto] at h
      dsimp only at h
      by_cases hc0 : c = 0
      · rw [if_pos hc0] at h; exact absurd h (by simp)
      · rw [if_neg hc0] at h
        cases h
        have hcp : 0 < c := by omega
        have h1 := ceilDivNat_pos hc hcp
        have h2 := le_ceilDivNat_mul g.count hcp
        dsimp only
        refine ⟨by exact_mod_cast hcp, by exact_mod_cast h1, ?_⟩
        have h3 : g.count ≤ c * ceilDivNat g.count c := by
          rw [Nat.mul_comm]; exact h2
        exact_mod_cast h3

/-! ## C1: grid layout under forced rows / columns -/

/-- C1: For every palette count > 0, if forcedRows > 0 the layout is
columns = ⌈count / forcedRows⌉ and rows = forcedRows regardless of
forcedColumns; count = 10 with forcedColumns = 3 (forcedRows unset) yields
layout (3, 4); count = 10 with forcedRows = 2 yields layout (5, 2); count = 0
yields the empty layout for all other inputs. -/
theorem rowcols_layout_spec :
    (∀ g : GridInput, 0 < g.count → 0 < g.forcedRows →
      rowcols g
        = some ⟨(ceilDivNat g.count g.forcedRows : Int), (g.forcedRows : Int)⟩) ∧
    (∀ g : GridInput, g.count = 10 → g.forcedRows = 0 → g.forcedColumns = 3 →
      rowcols g = some ⟨3, 4⟩) ∧
    (∀ g : GridInput, g.count = 10 → g.forcedRows = 2 →
      rowcols g = some ⟨5, 2⟩) ∧
    (∀ g : GridInput, g.count = 0 →
      rowcols g = some ⟨-1, -1⟩ ∧ (QSizeI.mk (-1) (-1)).isEmpty) := by
  refine ⟨?_, ?_, ?_, ?_⟩
  · intro g hc hf
    unfold rowcols
    rw [if_neg (by omega), if_pos (by omega)]
  · intro g hc hf hfc
    unfold rowcols autoColumns
    rw [hc, hf, hfc]
    norm_num [ceilDivNat]
  · intro g hc hf
    unfold rowcols
    rw [hc, hf]
    norm_num [ceilDivNat]
  · intro g hc
    refine ⟨?_, by norm_num [QSizeI.isEmpty]⟩
    unfold rowcols
    rw [if_pos hc]

theorem rowcols_layout_spec_witness :
    rowcols ⟨10, 0, 2, 0, 90, 40, 16, 16, 0⟩ = some ⟨5, 2⟩ :=
  rowcols_layout_spec.2.2.1 ⟨10, 0, 2, 0, 90, 40, 16, 16, 0⟩ rfl rfl

/-! ## C7: color conversion output range -/

theorem qBoundQ_unit (v : ℚ) : 0 ≤ qBoundQ 0 v 1 ∧ qBoundQ 0 v 1 ≤ 1 := by
  unfold qBoundQ
  constructor
  · exact le_max_left 0 _
  · exact max_le (by norm_num) (min_le_left 1 v)

/-- C7: For every hue in [0,1) and saturation, lightness, chroma, luma,
alpha in [0,1], every RGB output channel of both `color_from_hsl` and
`color_from_lch` lies in [0,1]: the lightness (respectively luma) offset is
added and each channel is then clamped to [0,1]. -/
theorem hsl_lch_channels_in_range (hue sat lig chroma luma alpha : ℚ)
    (hh0 : 0 ≤ hue) (hh1 : hue < 1) (hs0 : 0 ≤ sat) (hs1 : sat ≤ 1)
    (hl0 : 0 ≤ lig) (hl1 : lig ≤ 1) (hc0 : 0 ≤ chroma) (hc1 : chroma ≤ 1)
    (hy0 : 0 ≤ luma) (hy1 : luma ≤ 1) (ha0 : 0 ≤ alpha) (ha1 : alpha ≤ 1) :
    inRGBRange (color_from_hsl hue sat lig alpha) ∧
    inRGBRange (color_from_lch hue chroma luma alpha) := by
  constructor
  · unfold color_from_hsl inRGBRange
    dsimp only
    exact ⟨(qBoundQ_unit _).1, (qBoundQ_unit _).2, (qBoundQ_unit _).1,
      (qBoundQ_unit _).2, (qBoundQ_unit _).1, (qBoundQ_unit _).2⟩
  · unfold color_from_lch inRGBRange
    dsimp only
    exact ⟨(qBoundQ_unit _).1, (qBoundQ_unit _).2, (qBoundQ_unit _).1,
      (qBoundQ_unit _).2, (qBoundQ_unit _).1, (qBoundQ_unit _).2⟩

/-! ## Selection state helper lemmas -/

theorem setSelected_palette (s : SwatchState) (v : Int) :
    (setSelected s v).palette = s.palette := by
  unfold setSelected
  dsimp only
  split <;> split <;> rfl

theorem setSelected_selected (s : SwatchState) (v : Int) :
    (setSelected s v).selected =
      if v < 0 ∨ (s.palette.length : Int) ≤ v then -1 else v := by
  unfold setSelected
  by_cases h : v < 0 ∨ (s.palette.length : Int) ≤ v
  · simp only [if_pos h]
    split
    · rfl
    · next h2 => exact (not_ne_iff.mp h2).symm
  · simp only [if_neg h]
    split
    · rfl
    · next h2 => exact (not_ne_iff.mp h2).symm

theorem selInvariant_setSelected (s : SwatchState) (v : Int) :
    selInvariant (setSelected s v) := by
  unfold selInvariant
  rw [setSelected_selected, setSelected_palette]
  split_ifs with h
  · left; rfl
  · right; omega

theorem setSelected_out_of_range (s : SwatchState) (v : Int)
    (h : v < 0 ∨ (s.palette.length : Int) ≤ v) :
    (setSelected s v).selected = -1 := by
  rw [setSelected_selected, if_pos h]

theorem setSelected_in_range (s : SwatchState) (v : Int)
    (h0 : 0 ≤ v) (h1 : v < (s.palette.length : Int)) :
    (setSelected s v).selected = v := by
  rw [setSelected_selected, if_neg (by omega)]

theorem selInvariant_nonneg {s : SwatchState} (h : selInvariant s) :
    s.selected = -1 ∨ 0 ≤ s.selected := by
  rcases h with h | h
  · exact Or.inl h
  · exact Or.inr h.1

theorem paletteModified_palette (s : SwatchState) :
    (paletteModified s).palette = s.palette := by
  unfold paletteModified
  split
  · rw [setSelected_palette]
  · rfl

theorem paletteModified_selected (s : SwatchState) :
    (paletteModified s).selected =
      if (s.palette.length : Int) ≤ s.selected then -1 else s.selected := by
  unfold paletteModified
  split_ifs with h
  · rw [setSelected_out_of_range _ _ (Or.inl (by norm_num))]
  · rfl

theorem selInvariant_paletteModified (s : SwatchState)
    (h : s.selected = -1 ∨ 0 ≤ s.selected) :
    selInvariant (paletteModified s) := by
  unfold selInvariant
  rw [paletteModified_selected, paletteModified_palette]
  split_ifs with hle
  · left; rfl
  · rcases h with h | h
    · left; exact h
    · right; omega

theorem eraseColorEvent_palette (s : SwatchState) (i : Nat) :
    (eraseColorEvent s i).palette = s.palette.eraseIdx i := by
  unfold eraseColorEvent
  dsimp only
  rw [paletteModified_palette]
  split
  · rw [setSelected_palette]
  · rfl

theorem selInvariant_eraseColorEvent (s : SwatchState) (i : Nat)
    (h : selInvariant s) : selInvariant (eraseColorEvent s i) := by
  unfold eraseColorEvent
  dsimp only
  split
  · exact selInvariant_paletteModified _
      (selInvariant_nonneg (selInvariant_setSelected _ _))
  · have h2 := selInvariant_nonneg h
    exact selInvariant_paletteModified _ h2

theorem eraseColorEvent_selected_removed (s : SwatchState)
    (h0 : 0 ≤ s.selected) :
    (eraseColorEvent s s.selected.toNat).selected = -1 := by
  unfold eraseColorEvent
  dsimp only
  rw [if_pos (Int.toNat_of_nonneg h0)]
  rw [paletteModified_selected, setSelected_out_of_range _ _ (Or.inl (by norm_num))]
  split_ifs <;> rfl

theorem selInvariant_removeSelected (s : SwatchState) (h : selInvariant s) :
    selInvariant (removeSelected s) := by
  unfold removeSelected
  split
  · exact selInvariant_setSelected _ _
  · exact h

theorem setPalette_selected (s : SwatchState) (pal : List Color) (c : Nat) :
    (setPalette s pal c).selected = -1 := by
  unfold setPalette
  dsimp only
  exact setSelected_out_of_range _ _ (Or.inl (by norm_num))

theorem selInvariant_keyPressEvent (s : SwatchState) (k : Key) (c : Bool)
    (s1 : SwatchState) (h : selInvariant s)
    (he : keyPressEvent s k c = some s1) : selInvariant s1 := by
  unfold keyPressEvent at he
  cases hrc : rowcols (gridOf s) with
  | none => rw [hrc] at he; exact absurd he (by simp)
  | some rc =>
    rw [hrc] at he
    dsimp only at he
    cases k <;> dsimp only at he <;>
      (try split at he) <;>
      cases he <;>
      first
        | exact selInvariant_setSelected _ _
        | exact selInvariant_removeSelected _ h
        | exact h

theorem hsl_lch_channels_in_range_witness :
    inRGBRange (color_from_hsl (1/2) (1/2) (1/2) 1) ∧
    inRGBRange (color_from_lch (1/2) (1/2) (1/2) 1) :=
  hsl_lch_channels_in_range (1/2) (1/2) (1/2) (1/2) (1/2) 1
    (by norm_num) (by norm_num) (by norm_num) (by norm_num) (by norm_num)
    (by norm_num) (by norm_num) (by norm_num) (by norm_num) (by norm_num)
    (by norm_num) (by norm_num)

/-! ## C5: selection invariant -/

/-- C5: The selection index is always the sentinel -1 or in [0, count), and
the invariant is preserved by every modelled operation; setting the selection
normalises any index outside [0, count) to -1; the selection is cleared to
none when the palette shrinks to count ≤ selected index; and it is cleared
to none when the selected entry is removed. -/
theorem selection_invariant_ops :
    (∀ s v, selInvariant (setSelected s v)) ∧
    (∀ (s : SwatchState) (v : Int),
      (v < 0 ∨ (s.palette.length : Int) ≤ v) → (setSelected s v).selected = -1) ∧
    (∀ s k c s1, selInvariant s → keyPressEvent s k c = some s1 → selInvariant s1) ∧
    (∀ s, selInvariant s → selInvariant (removeSelected s)) ∧
    (∀ s i, selInvariant s → selInvariant (eraseColorEvent s i)) ∧
    (∀ s, s.selected = -1 ∨ 0 ≤ s.selected → selInvariant (paletteModified s)) ∧
    (∀ s pal c, selInvariant (setPalette s pal c)) ∧
    (∀ (s : SwatchState) (pal : List Color), 0 ≤ s.selected →
      (pal.length : Int) ≤ s.selected →
      (paletteModified { s with palette := pal }).selected = -1) ∧
    (∀ (s : SwatchState), 0 ≤ s.selected →
      (eraseColorEvent s s.selected.toNat).selected = -1) := by
  refine ⟨selInvariant_setSelected, setSelected_out_of_range,
    selInvariant_keyPressEvent, selInvariant_removeSelected,
    selInvariant_eraseColorEvent, selInvariant_paletteModified,
    ?_, ?_, eraseColorEvent_selected_removed⟩
  · intro s pal c
    unfold selInvariant
    rw [setPalette_selected]
    left; rfl
  · intro s pal h0 hlen
    rw [paletteModified_selected]
    dsimp only
    rw [if_pos hlen]

theorem selection_invariant_ops_witness :
    (setSelected noSelectionState 7).selected = -1 :=
  selection_invariant_ops.2.1 noSelectionState 7 (by decide)

/-! ## C6: keyboard navigation (Left / Right / Backspace) -/

/-- C6: With no selection and count = 5, Right selects index 0 and Left
selects index 4; with the last index (4 of 5) selected, Right leaves the
selection unchanged (clamped, no wrap); Backspace with index 0 of a
single-entry palette selected removes the entry and leaves the selection
none. -/
theorem keyboard_nav_left_right_backspace :
    (∀ (s : SwatchState) (c : Bool) (s1 : SwatchState), s.selected = -1 →
      s.palette.length = 5 → keyPressEvent s .right c = some s1 →
      s1.selected = 0) ∧
    (∀ (s : SwatchState) (c : Bool) (s1 : SwatchState), s.selected = -1 →
      s.palette.length = 5 → keyPressEvent s .left c = some s1 →
      s1.selected = 4) ∧
    (∀ (s : SwatchState) (c : Bool) (s1 : SwatchState), s.selected = 4 →
      s.palette.length = 5 → keyPressEvent s .right c = some s1 →
      s1.selected = 4) ∧
    (∀ (s : SwatchState) (c : Bool) (s1 : SwatchState), s.selected = 0 →
      s.palette.length = 1 → s.readonly = false →
      keyPressEvent s .backspace c = some s1 →
      s1.selected = -1 ∧ s1.palette = []) := by
  refine ⟨?_, ?_, ?_, ?_⟩
  · intro s c s1 hsel hlen he
    unfold keyPressEvent at he
    cases hrc : rowcols (gridOf s) with
    | none => rw [hrc] at he; exact absurd he (by simp)
    | some rc =>
      rw [hrc] at he
      dsimp only at he
      rw [hsel] at he
      norm_num at he
      cases he
      exact setSelected_in_range s 0 (by norm_num) (by rw [hlen]; norm_num)
  · intro s c s1 hsel hlen he
    unfold keyPressEvent at he
    cases hrc : rowcols (gridOf s) with
    | none => rw [hrc] at he; exact absurd he (by simp)
    | some rc =>
      rw [hrc] at he
      dsimp only at he
      rw [hsel, hlen] at he
      norm_num at he
      cases he
      exact setSelected_in_range s 4 (by norm_num) (by rw [hlen]; norm_num)
  · intro s c s1 hsel hlen he
    unfold keyPressEvent at he
    cases hrc : rowcols (gridOf s) with
    | none => rw [hrc] at he; exact absurd he (by simp)
    | some rc =>
      rw [hrc] at he
      dsimp only at he
      rw [hsel, hlen] at he
      norm_num at he
      cases he
      exact setSelected_in_range s 4 (by norm_num) (by rw [hlen]; norm_num)
  · intro s c s1 hsel hlen hro he
    obtain ⟨a, ha⟩ := List.length_eq_one.mp hlen
    have hp : (eraseColorEvent s 0).palette = [] := by
      rw [eraseColorEvent_palette, ha]
      rfl
    unfold keyPressEvent at he
    cases hrc : rowcols (gridOf s) with
    | none => rw [hrc] at he; exact absurd he (by simp)
    | some rc =>
      rw [hrc] at he
      dsimp only at he
      rw [hsel, hro] at he
      norm_num at he
      rw [hp] at he
      norm_num at he
      subst he
      refine ⟨?_, ?_⟩
      · exact setSelected_out_of_range _ _ (Or.inl (by norm_num))
      · rw [setSelected_palette, hp]

theorem keyboard_nav_witness :
    (setSelected fiveState 0).selected = 0 :=
  keyboard_nav_left_right_backspace.1 fiveState false (setSelected fiveState 0)
    rfl rfl (by decide)

/-! ## C8: indices passed to the palette collaborator -/

/-- Any index returned by `indexAt` is the sentinel -1 or lies in
[0, count). -/
theorem indexAt_range {g : GridInput} {pt : ℚ × ℚ} {i : Int}
    (h : indexAt g pt = some i) :
    i = -1 ∨ (0 ≤ i ∧ i < (g.count : Int)) := by
  unfold indexAt at h
  cases hrc : rowcols g with
  | none => rw [hrc] at h; exact absurd h (by simp)
  | some rc =>
    rw [hrc] at h
    dsimp only at h
    split at h
    · cases h; exact Or.inl rfl
    · split at h
      · exact absurd h (by simp)
      · split at h
        · cases h; exact Or.inl rfl
        · next hcount =>
          cases h
          exact Or.inr ⟨add_nonneg
            (mul_nonneg (le_max_left 0 _) (by
              rename_i hne _
              unfold QSizeI.isEmpty at hne
              omega))
            (le_max_left 0 _), not_le.mp hcount⟩

/-- C8 counterexample: with three colors and no selection,
`Swatch::selectedColor` passes the sentinel -1 to the palette collaborator's
`colorAt` — an out-of-range index does propagate to the collaborator. -/
theorem collaborator_index_counterexample :
    selectedColorCallIndex noSelectionState = -1 ∧
    (noSelectionState.palette.length : Int) = 3 ∧
    ¬(0 ≤ selectedColorCallIndex noSelectionState ∧
      selectedColorCallIndex noSelectionState
        < (noSelectionState.palette.length : Int)) := by
  decide

/-- C8 (amended): under the selection invariant, every index passed to the
collaborator's mutating `eraseColor` (by removeSelected or the Backspace
handler) is in [0, count); the index `selectedColor` passes to `colorAt` is
the sentinel -1 (when nothing is selected) or in range; and the index
`colorAt(point)` passes to `colorAt` is -1 or in range. -/
theorem collaborator_index_ranges (s : SwatchState) (pt : ℚ × ℚ)
    (h : selInvariant s) :
    (∀ i, removeSelectedEraseIndex s = some i →
      0 ≤ i ∧ i < (s.palette.length : Int)) ∧
    (∀ i, backspaceEraseIndex s = some i →
      0 ≤ i ∧ i < (s.palette.length : Int)) ∧
    (selectedColorCallIndex s = -1 ∨
      (0 ≤ selectedColorCallIndex s ∧
        selectedColorCallIndex s < (s.palette.length : Int))) ∧
    (∀ i, colorAtPointCallIndex s pt = some i →
      i = -1 ∨ (0 ≤ i ∧ i < (s.palette.length : Int))) := by
  refine ⟨?_, ?_, h, ?_⟩
  · intro i hi
    unfold removeSelectedEraseIndex at hi
    split at hi
    · next hcond =>
      cases hi
      rcases h with h | h
      · exact absurd h hcond.1
      · exact h
    · exact absurd hi (by simp)
  · intro i hi
    unfold backspaceEraseIndex at hi
    split at hi
    · next hcond =>
      cases hi
      rcases h with h | h
      · exact absurd h hcond.1
      · exact h
    · exact absurd hi (by simp)
  · intro i hi
    exact indexAt_range hi

theorem collaborator_index_ranges_witness :
    selectedColorCallIndex twoSelectedState = -1 ∨
    (0 ≤ selectedColorCallIndex twoSelectedState ∧
      selectedColorCallIndex twoSelectedState
        < (twoSelectedState.palette.length : Int)) :=
  (collaborator_index_ranges twoSelectedState (0, 0)
    (Or.inr ⟨by decide, by decide⟩)).2.2.1

/-! ## C10: Delete-key removal -/

/-- C10 counterexample: with two colors and index 0 selected (not
read-only), `removeSelected` erases the entry but then makes a further
selection-set call that re-selects index 0; the selection does not end
cleared to none. -/
theorem delete_reselects_counterexample :
    (removeSelected twoSelectedState).selected = 0 ∧
    (removeSelected twoSelectedState).palette = [8] ∧
    ¬(removeSelected twoSelectedState).selected = -1 := by
  decide

/-- C10 (amended): when Delete is pressed with a valid selection and the
widget is not read-only, the handler removes the selected entry and then
makes one further selection-set call with min(old selected, new count − 1);
the selection ends at that index, which is none exactly when the palette
became empty. -/
theorem delete_removes_and_reselects (s : SwatchState) (h0 : 0 ≤ s.selected)
    (hro : s.readonly = false) :
    (∀ (c : Bool) (rc : QSizeI), rowcols (gridOf s) = some rc →
      keyPressEvent s .delete c = some (removeSelected s)) ∧
    (removeSelected s).palette = s.palette.eraseIdx s.selected.toNat ∧
    (removeSelected s).selected =
      (if (s.palette.eraseIdx s.selected.toNat).length = 0 then -1
       else min s.selected
         (((s.palette.eraseIdx s.selected.toNat).length : Int) - 1)) := by
  have hcond : s.selected ≠ -1 ∧ ¬s.readonly = true := ⟨by omega, by rw [hro]; simp⟩
  refine ⟨?_, ?_, ?_⟩
  · intro c rc hrc
    unfold keyPressEvent
    rw [hrc]
  · unfold removeSelected
    rw [if_pos hcond]
    dsimp only
    rw [setSelected_palette, eraseColorEvent_palette]
  · unfold removeSelected
    rw [if_pos hcond]
    dsimp only
    rw [setSelected_selected, eraseColorEvent_palette]
    split_ifs with h1 h2 h2 <;> omega

theorem delete_removes_and_reselects_witness :
    (removeSelected twoSelectedState).palette
      = twoSelectedState.palette.eraseIdx twoSelectedState.selected.toNat :=
  (delete_removes_and_reselects twoSelectedState (by decide) (by decide)).2.1

/-! ## C2: cellRect / indexAt round trip -/

theorem qBoundI_of_mem {lo v hi : Int} (h0 : lo ≤ v) (h1 : v ≤ hi) :
    qBoundI lo v hi = v := by
  unfold qBoundI
  omega

theorem indexRect_eq {g : GridInput} {rc : QSizeI} (hrc : rowcols g = some rc)
    (hv : rc.isValid) (i : Nat) :
    indexRect g (i : Int)
      = some (indexRectRaw (i : Int) rc (actualColorSize g rc) g.margin) := by
  unfold indexRect
  rw [hrc]
  dsimp only
  rw [if_neg (by push_neg; exact ⟨by omega, hv⟩)]

/-- C2: For every valid layout (count > 0 and a positive container size, so
every cell has positive size) and every index i in [0, count), hit-testing
the center point of the cell rectangle of i returns i, for every margin
value. -/
theorem cellRect_indexAt_roundtrip (g : GridInput) (rc : QSizeI) (i : Nat)
    (r : RectQ) (hrc : rowcols g = some rc) (hW : 0 < g.width)
    (hH : 0 < g.height) (hi : i < g.count)
    (hr : indexRect g (i : Int) = some r) :
    indexAt g r.center = some (i : Int) := by
  obtain ⟨hw, hh, hwh⟩ := rowcols_pos hrc (by omega)
  have hWq : ((g.width : ℚ)) ≠ 0 := by
    have : (0 : ℚ) < (g.width : ℚ) := by exact_mod_cast hW
    exact ne_of_gt this
  have hHq : ((g.height : ℚ)) ≠ 0 := by
    have : (0 : ℚ) < (g.height : ℚ) := by exact_mod_cast hH
    exact ne_of_gt this
  have hwq : ((rc.w : ℚ)) ≠ 0 := by
    have : (0 : ℚ) < (rc.w : ℚ) := by exact_mod_cast (by omega : (0 : Int) < rc.w)
    exact ne_of_gt this
  have hhq : ((rc.h : ℚ)) ≠ 0 := by
    have : (0 : ℚ) < (rc.h : ℚ) := by exact_mod_cast (by omega : (0 : Int) < rc.h)
    exact ne_of_gt this
  rw [indexRect_eq hrc ⟨by omega, by omega⟩ i] at hr
  cases hr
  have hk0 : 0 ≤ (i : Int).tmod rc.w := Int.tmod_nonneg _ (by omega)
  have hk1 : (i : Int).tmod rc.w < rc.w := Int.tmod_lt_of_pos _ (by omega)
  have hq0 : 0 ≤ (i : Int).tdiv rc.w := Int.tdiv_nonneg (by omega) (by omega)
  have hq1 : (i : Int).tdiv rc.w < rc.h := by
    rw [Int.tdiv_eq_ediv (by omega) (by omega)]
    rw [Int.ediv_lt_iff_lt_mul (by omega)]
    calc (i : Int) < (g.count : Int) := by exact_mod_cast hi
      _ ≤ rc.w * rc.h := hwh
      _ = rc.h * rc.w := by ring
  have hc1 : (RectQ.center
        (indexRectRaw (i : Int) rc (actualColorSize g rc) g.margin)).1
      / (actualColorSize g rc).1 = (((i : Int).tmod rc.w : Int) : ℚ) + 1 / 2 := by
    unfold indexRectRaw RectQ.center actualColorSize
    rw [if_neg (by omega)]
    dsimp only
    field_simp
    ring
  have hc2 : (RectQ.center
        (indexRectRaw (i : Int) rc (actualColorSize g rc) g.margin)).2
      / (actualColorSize g rc).2 = (((i : Int).tdiv rc.w : Int) : ℚ) + 1 / 2 := by
    unfold indexRectRaw RectQ.center actualColorSize
    rw [if_neg (by omega)]
    dsimp only
    field_simp
    ring
  have hidx : (i : Int).tdiv rc.w * rc.w + (i : Int).tmod rc.w = (i : Int) := by
    rw [mul_comm]
    exact Int.tdiv_add_tmod _ _
  unfold indexAt
  rw [hrc]
  dsimp only
  rw [if_neg (by unfold QSizeI.isEmpty; omega)]
  rw [if_neg (by
    push_neg
    constructor
    · unfold actualColorSize
      dsimp only
      exact div_ne_zero hWq hwq
    · unfold actualColorSize
      dsimp only
      exact div_ne_zero hHq hhq)]
  rw [hc1, hc2, truncQ_int_add_half _ hk0, truncQ_int_add_half _ hq0,
    qBoundI_of_mem hk0 (by omega), qBoundI_of_mem hq0 (by omega)]
  rw [if_neg (by rw [hidx]; exact not_le.mpr (by exact_mod_cast hi))]
  rw [hidx]

theorem cellRect_indexAt_roundtrip_witness :
    indexAt ⟨10, 0, 0, 3, 90, 40, 16, 16, 1⟩ (RectQ.center ⟨31, 21, 28, 8⟩)
      = some 7 :=
  cellRect_indexAt_roundtrip ⟨10, 0, 0, 3, 90, 40, 16, 16, 1⟩ ⟨3, 4⟩ 7
    ⟨31, 21, 28, 8⟩ (by decide) (by decide) (by decide) (by decide)
    (by
      rw [indexRect_eq
        (show rowcols ⟨10, 0, 0, 3, 90, 40, 16, 16, 1⟩ = some ⟨3, 4⟩ by decide)
        (by decide) 7]
      unfold indexRectRaw actualColorSize
      rw [if_neg (by decide)]
      rw [show ((7 : Nat) : Int).tmod 3 = 1 by decide,
          show ((7 : Nat) : Int).tdiv 3 = 2 by decide]
      norm_num)

/-! ## C3: single-column drop disposition (code defect) -/

/-- C3: the single-column drop branch of `Swatch::Private::dropEvent`
compares the pointer's x coordinate against the vertical first-quarter
boundary (src/swatch.cpp:142 tests `event->posF().x()` against
`drop_rect.top() + drop_rect.height() / 4`), where the in-code comment and
the claim call for the y coordinate.  On `dropBugState` (one column of
40×100 cells): a drop at (30, 10) — vertically in the first quarter, so the
claim says insert-before — is resolved as overwrite because x = 30 > 25,
and a drop at (5, 50) — vertically in the middle, so the claim says
overwrite — is resolved as insert-before because x = 5 ≤ 25. -/
theorem single_column_drop_checks_x :
    resolveDrop dropBugState (30, 10) false = some (0, true) ∧
    resolveDrop dropBugState (5, 50) false = some (0, false) := by
  have hrc : rowcols (gridOf dropBugState) = some ⟨1, 2⟩ := by decide
  have hrect : indexRect (gridOf dropBugState) 0
      = some ⟨0, 0, 40, 100⟩ := by
    rw [show (0 : Int) = ((0 : Nat) : Int) by norm_num]
    rw [indexRect_eq hrc (by decide) 0]
    unfold indexRectRaw actualColorSize
    rw [if_neg (by decide)]
    rw [show ((0 : Nat) : Int).tmod 1 = 0 by decide,
        show ((0 : Nat) : Int).tdiv 1 = 0 by decide]
    norm_num [gridOf, dropBugState]
  have hidx1 : indexAt (gridOf dropBugState) (30, 10) = some 0 := by
    unfold indexAt
    rw [hrc]
    dsimp only
    rw [if_neg (by decide)]
    rw [if_neg (by norm_num [actualColorSize, gridOf, dropBugState])]
    norm_num [actualColorSize, gridOf, dropBugState, truncQ, qBoundI]
    decide
  have hidx2 : indexAt (gridOf dropBugState) (5, 50) = some 0 := by
    unfold indexAt
    rw [hrc]
    dsimp only
    rw [if_neg (by decide)]
    rw [if_neg (by norm_num [actualColorSize, gridOf, dropBugState])]
    norm_num [actualColorSize, gridOf, dropBugState, truncQ, qBoundI]
    decide
  constructor
  · unfold resolveDrop
    rw [hidx1]
    dsimp only
    rw [if_neg (by norm_num)]
    rw [hrect]
    dsimp only
    rw [if_pos ⟨by decide, by norm_num [RectQ.isValid]⟩]
    rw [if_pos (by left; decide)]
    rw [if_neg (by norm_num [RectQ.top])]
    rw [if_pos ⟨by norm_num [RectQ.top], Or.inl (by norm_num)⟩]
  · unfold resolveDrop
    rw [hidx2]
    dsimp only
    rw [if_neg (by norm_num)]
    rw [hrect]
    dsimp only
    rw [if_pos ⟨by decide, by norm_num [RectQ.isValid]⟩]
    rw [if_pos (by left; decide)]
    rw [if_neg (by norm_num [RectQ.top])]
    rw [if_neg (by norm_num [RectQ.top])]

/-! ## C4: multi-column drop disposition -/

/-- C4: In a multi-column layout, for every candidate index i < count with a
valid cell rectangle: a pointer in the last quarter of the cell's width
yields disposition insert-after with target index i + 1, and a pointer in
the middle of the cell's width over a cell holding the empty sentinel color
yields disposition overwrite even for a same-widget move drag. -/
theorem multi_column_drop_disposition (s : SwatchState) (pos : ℚ × ℚ)
    (move : Bool) (i : Int) (r : RectQ)
    (hmc : ¬(s.paletteColumns = 1 ∨ s.forcedColumns = 1))
    (hidx : indexAt (gridOf s) pos = some i) (h0 : 0 ≤ i)
    (hcount : i < (s.palette.length : Int))
    (hrect : indexRect (gridOf s) i = some r) (hv : r.isValid) :
    (r.left + r.w * 3 / 4 ≤ pos.1 →
      resolveDrop s pos move = some (i + 1, false)) ∧
    (r.left + r.w / 4 < pos.1 → pos.1 < r.left + r.w * 3 / 4 →
      paletteColorAt s.palette i = some s.emptyColor →
      resolveDrop s pos move = some (i, true)) := by
  have hne : ¬(i = -1) := by omega
  constructor
  · intro hq
    unfold resolveDrop
    rw [hidx]
    dsimp only
    rw [if_neg hne, hrect]
    dsimp only
    rw [if_pos ⟨hcount, hv⟩, if_neg hmc, if_pos hq]
  · intro hq1 hq2 hemp
    unfold resolveDrop
    rw [hidx]
    dsimp only
    rw [if_neg hne, hrect]
    dsimp only
    rw [if_pos ⟨hcount, hv⟩, if_neg hmc, if_neg (not_le.mpr hq2),
      if_pos ⟨hq1, Or.inr hemp⟩]

theorem multi_column_drop_disposition_witness :
    resolveDrop fourColState (38, 5) true = some (2, false) := by
  have h := (multi_column_drop_disposition fourColState (38, 5) true 1
    ⟨20, 0, 20, 20⟩ (by decide)
    (by
      unfold indexAt
      rw [show rowcols (gridOf fourColState) = some ⟨4, 2⟩ by decide]
      dsimp only
      rw [if_neg (by decide)]
      rw [if_neg (by norm_num [actualColorSize, gridOf, fourColState])]
      norm_num [actualColorSize, gridOf, fourColState, truncQ, qBoundI]
      decide)
    (by norm_num) (by decide)
    (by
      rw [show ((1 : Int)) = ((1 : Nat) : Int) by norm_num]
      rw [indexRect_eq
        (show rowcols (gridOf fourColState) = some ⟨4, 2⟩ by decide)
        (by decide) 1]
      unfold indexRectRaw actualColorSize
      rw [if_neg (by decide)]
      rw [show ((1 : Nat) : Int).tmod 4 = 1 by decide,
          show ((1 : Nat) : Int).tdiv 4 = 0 by decide]
      norm_num [gridOf, fourColState])
    (by norm_num [RectQ.isValid])).1
    (by norm_num [RectQ.left])
  simpa using h

/-! ## C9: degenerate geometry -/

/-- C9 counterexample: with one color, zero widget width, no forced
constraint and no palette column hint, the automatic column count works out
to 0 and `rowcols` divides the count by it — the layout computation is not
total on a zero container width (the `none` marks the division by zero /
non-finite conversion in the source). -/
theorem degenerate_geometry_counterexample :
    rowcols ⟨1, 0, 0, 0, 0, 100, 16, 16, 0⟩ = none ∧
    GridInput.width ⟨1, 0, 0, 0, 0, 100, 16, 16, 0⟩ = 0 ∧
    0 < GridInput.count ⟨1, 0, 0, 0, 0, 100, 16, 16, 0⟩ := by
  decide

/-- C9 (amended): for palette count = 0 every geometry query returns its
explicit empty/none result with no division performed: the layout is the
invalid empty `QSize()`, the hit test returns the sentinel -1, and the cell
rectangle query returns the null rectangle (with a zero container width but
count > 0 and no forced or hinted columns, the layout computation instead
divides by a zero column count). -/
theorem degenerate_geometry_empty (g : GridInput) (pt : ℚ × ℚ) (i : Int)
    (h : g.count = 0) :
    rowcols g = some ⟨-1, -1⟩ ∧ (QSizeI.mk (-1) (-1)).isEmpty ∧
    indexAt g pt = some (-1) ∧ indexRect g i = some ⟨0, 0, 0, 0⟩ := by
  have hrc : rowcols g = some ⟨-1, -1⟩ := by
    unfold rowcols
    rw [if_pos h]
  refine ⟨hrc, by unfold QSizeI.isEmpty; norm_num, ?_, ?_⟩
  · unfold indexAt
    rw [hrc]
    dsimp only
    rw [if_pos (by unfold QSizeI.isEmpty; norm_num)]
  · unfold indexRect
    rw [hrc]
    dsimp only
    rw [if_pos (Or.inr (by simp [QSizeI.isValid]))]

theorem degenerate_geometry_empty_witness :
    indexAt ⟨0, 5, 2, 7, 30, 20, 16, 16, 3⟩ (5, 7) = some (-1) :=
  (degenerate_geometry_empty ⟨0, 5, 2, 7, 30, 20, 16, 16, 3⟩ (5, 7) 3 rfl).2.2.1

end ColorWidgets
